import Mathlib

/-!
Shallow embedding of the ColorClash combat core (TypeScript source):
geometry, Hitbox, elemental strategies, the four-state character
behavior machine, the Character aggregate, and the collision system.
Numbers are modelled as exact rationals.
-/

/-- 2D vector `{x, y}` from `types.ts`. -/
structure Vector2 where
  x : ℚ
  y : ℚ
deriving DecidableEq, Repr

/-- Axis-aligned rectangle `{x, y, width, height}` from `types.ts`. -/
structure Rectangle where
  x : ℚ
  y : ℚ
  width : ℚ
  height : ℚ
deriving DecidableEq, Repr

/-- `Hitbox` entity (src Hitbox.ts): poolable AABB attack volume. -/
structure Hitbox where
  active : Bool
  x : ℚ
  y : ℚ
  width : ℚ
  height : ℚ
  ownerId : String
  damage : ℚ
deriving DecidableEq, Repr

/-- `AttackResult {damage, knockback, hitStun}` from `types.ts`. -/
structure AttackResult where
  damage : ℚ
  knockback : Vector2
  hitStun : ℚ
deriving DecidableEq, Repr

/-- The two elemental strategy variants (`FireModeStrategy`/`WaterModeStrategy`). -/
inductive ModeName where
  | fire
  | water
deriving DecidableEq, Repr

/-- Modelled from the spec: the Observer `Subject.notify` channel is missing
from src; notifications are recorded in an append-only per-character event
log, carrying the two event kinds of the spec (`HealthChangeEvent`,
`ModeChangeEvent`). -/
inductive GameEvent where
  | healthChange (playerId : String) (currentHealth maxHealth damage : ℚ)
  | modeChange (playerId : String) (newMode : ModeName)
deriving DecidableEq, Repr

/-- The current behavior state together with its per-activation scratch
fields (AttackState: `attackTimer`, `hasHit`; HitState: `stunTimer`,
`stunDuration`), which the source resets on `enter`. -/
inductive StateData where
  | idle
  | move
  | attack (attackTimer : ℚ) (hasHit : Bool)
  | hit (stunTimer stunDuration : ℚ)
deriving DecidableEq, Repr

/-- Tag naming one of the four states, used as a transition target. -/
inductive StateTag where
  | idle
  | move
  | attack
  | hit
deriving DecidableEq, Repr

/-- `InputFlags` set by the Command pattern (Character.ts). -/
structure InputFlags where
  left : Bool
  right : Bool
  up : Bool
  down : Bool
  attack : Bool
  moving : Bool
deriving DecidableEq, Repr

/-- Modelled from the spec: the numeric constants of
`constants/GameConfig.ts` are missing from src; the development is
parameterized over them. -/
structure GameConfig where
  characterWidth : ℚ
  characterHeight : ℚ
  groundY : ℚ
  gravity : ℚ
  maxHealth : ℚ
  attackCooldown : ℚ
  attackWidth : ℚ
  attackHeight : ℚ
  canvasWidth : ℚ
  attackDuration : ℚ
  hitStunDuration : ℚ
  characterSpeed : ℚ
  jumpForce : ℚ
deriving DecidableEq, Repr

/-- A concrete configuration used to instantiate closed statements. -/
def defaultConfig : GameConfig where
  characterWidth := 50
  characterHeight := 100
  groundY := 500
  gravity := 1500
  maxHealth := 100
  attackCooldown := 800
  attackWidth := 60
  attackHeight := 40
  canvasWidth := 1200
  attackDuration := 300
  hitStunDuration := 400
  characterSpeed := 300
  jumpForce := -600

/-- The `Character` aggregate (Character.ts): identity, transform, combat
fields, physics flag, active strategy, active behavior state with its
per-activation payload, input flags, and the recorded notifications. -/
structure Character where
  playerId : String
  position : Vector2
  velocity : Vector2
  facingRight : Bool
  health : ℚ
  attackCooldownTimer : ℚ
  isAttacking : Bool
  isHitStunned : Bool
  lastHitStun : ℚ
  attackHitbox : Option Hitbox
  isGrounded : Bool
  elementalMode : ModeName
  state : StateData
  inputFlags : InputFlags
  events : List GameEvent
deriving DecidableEq, Repr

/-- `Math.max` on exact rationals. -/
def jsMax (a b : ℚ) : ℚ := if a ≤ b then b else a

/-- `Math.min` on exact rationals. -/
def jsMin (a b : ℚ) : ℚ := if a ≤ b then a else b

/-- The `IElementalMode` strategy contract: multipliers, a defend
function reducing incoming damage, and an attack function producing an
`AttackResult`. -/
structure ElementalModeImpl where
  name : ModeName
  damageMultiplier : ℚ
  attackSpeedMultiplier : ℚ
  defend : ℚ → ℚ
  attack : Character → Character → AttackResult

/-- Modelled from the spec: `FireModeStrategy` is missing from src. Fire
has the higher damage multiplier, the faster attack speed multiplier
(shorter cooldown) and the weaker defend reduction; its attack result is
base damage times the damage multiplier with a facing-directed knockback. -/
def fireMode : ElementalModeImpl where
  name := .fire
  damageMultiplier := 3 / 2
  attackSpeedMultiplier := 3 / 2
  defend := fun incoming => incoming * (9 / 10)
  attack := fun self _ =>
    { damage := 10 * (3 / 2)
      knockback := ⟨(if self.facingRight then 1 else -1) * 250, -150⟩
      hitStun := 300 }

/-- Modelled from the spec: `WaterModeStrategy` is missing from src. Water
has lower damage output, slower cooldown, and the stronger defend
reduction. -/
def waterMode : ElementalModeImpl where
  name := .water
  damageMultiplier := 1
  attackSpeedMultiplier := 4 / 5
  defend := fun incoming => incoming * (6 / 10)
  attack := fun self _ =>
    { damage := 10 * 1
      knockback := ⟨(if self.facingRight then 1 else -1) * 200, -120⟩
      hitStun := 200 }

/-- Resolve the active strategy object from the stored mode name. -/
def getMode : ModeName → ElementalModeImpl
  | .fire => fireMode
  | .water => waterMode

/-- The mode the toggle in `switchElementalMode` selects next. -/
def otherMode : ModeName → ModeName
  | .fire => .water
  | .water => .fire

/-- `Hitbox.intersects`: strict AABB overlap with a rectangle. -/
def Hitbox.intersects (hb : Hitbox) (other : Rectangle) : Bool :=
  decide (hb.x < other.x + other.width) &&
  decide (hb.x + hb.width > other.x) &&
  decide (hb.y < other.y + other.height) &&
  decide (hb.y + hb.height > other.y)

/-- `Character.getHurtbox`: body collision box at the current position
with the fixed character dimensions. -/
def Character.getHurtbox (cfg : GameConfig) (c : Character) : Rectangle :=
  ⟨c.position.x, c.position.y, cfg.characterWidth, cfg.characterHeight⟩

/-- `Character.applyGravity`: accelerate downward while airborne. -/
def Character.applyGravity (cfg : GameConfig) (c : Character) (dt : ℚ) : Character :=
  if !c.isGrounded then
    { c with velocity := ⟨c.velocity.x, c.velocity.y + cfg.gravity * dt⟩ }
  else c

/-- `Character.checkGroundCollision`: clamp to ground level, zero the
vertical velocity and set the grounded flag. -/
def Character.checkGroundCollision (cfg : GameConfig) (c : Character) : Character :=
  let groundLevel := cfg.groundY - cfg.characterHeight
  if c.position.y ≥ groundLevel then
    { c with position := ⟨c.position.x, groundLevel⟩
             velocity := ⟨c.velocity.x, 0⟩
             isGrounded := true }
  else
    { c with isGrounded := false }

/-- `Character.checkBoundaries`: clamp the horizontal position to the
canvas and zero the horizontal velocity at a wall. -/
def Character.checkBoundaries (cfg : GameConfig) (c : Character) : Character :=
  let c1 :=
    if c.position.x < 0 then
      { c with position := ⟨0, c.position.y⟩, velocity := ⟨0, c.velocity.y⟩ }
    else c
  if c1.position.x + cfg.characterWidth > cfg.canvasWidth then
    { c1 with position := ⟨cfg.canvasWidth - cfg.characterWidth, c1.position.y⟩
              velocity := ⟨0, c1.velocity.y⟩ }
  else c1

/-- `Character.canAttack`: cooldown elapsed and not stunned. -/
def Character.canAttack (c : Character) : Bool :=
  decide (c.attackCooldownTimer ≤ 0) && !c.isHitStunned

/-- `Character.startAttackCooldown`: base cooldown divided by the active
mode's attack speed multiplier. -/
def Character.startAttackCooldown (cfg : GameConfig) (c : Character) : Character :=
  { c with attackCooldownTimer :=
      cfg.attackCooldown / (getMode c.elementalMode).attackSpeedMultiplier }

/-- `Character.updateAttackHitbox`: no-op without a hitbox, otherwise
re-initialize it in front of the facing side and mark it active. -/
def Character.updateAttackHitbox (cfg : GameConfig) (c : Character) : Character :=
  match c.attackHitbox with
  | none => c
  | some _ =>
    let hitboxX :=
      if c.facingRight then c.position.x + cfg.characterWidth
      else c.position.x - cfg.attackWidth
    let hitboxY := c.position.y + cfg.characterHeight / 2 - cfg.attackHeight / 2
    let hb : Hitbox :=
      ⟨true, hitboxX, hitboxY, cfg.attackWidth, cfg.attackHeight,
       c.playerId, (getMode c.elementalMode).damageMultiplier * 10⟩
    { c with attackHitbox := some hb }

/-- `Character.createAttackHitbox`: allocate a fresh hitbox and position it. -/
def Character.createAttackHitbox (cfg : GameConfig) (c : Character) : Character :=
  Character.updateAttackHitbox cfg
    { c with attackHitbox := some ⟨false, 0, 0, 0, 0, "", 0⟩ }

/-- `Character.removeAttackHitbox`: deactivate and drop the hitbox. -/
def Character.removeAttackHitbox (c : Character) : Character :=
  { c with attackHitbox := none }

/-- The `exit` hook of the current state (IdleState/MoveState/AttackState/
HitState `exit` methods). -/
def stateExit (c : Character) : Character :=
  match c.state with
  | .idle => c
  | .move => { c with velocity := ⟨0, c.velocity.y⟩ }
  | .attack _ _ => Character.removeAttackHitbox { c with isAttacking := false }
  | .hit _ _ => { c with isHitStunned := false, lastHitStun := 0 }

/-- The `enter` hook of the target state; the Attack and Hit variants
reset their per-activation scratch fields. Hit duration falls back to the
default when `lastHitStun` is zero (the source's `lastHitStun ||
HIT_STUN_DURATION`). -/
def stateEnter (cfg : GameConfig) (c : Character) : StateTag → Character
  | .idle => { c with velocity := ⟨0, c.velocity.y⟩, state := .idle }
  | .move => { c with state := .move }
  | .attack =>
    Character.createAttackHitbox cfg
      (Character.startAttackCooldown cfg
        { c with state := .attack 0 false, isAttacking := true })
  | .hit =>
    let dur := if c.lastHitStun = 0 then cfg.hitStunDuration else c.lastHitStun
    { c with state := .hit 0 dur, isHitStunned := true }

/-- `Character.transitionTo`: exit the current state, then enter the new one. -/
def Character.transitionTo (cfg : GameConfig) (c : Character) (tag : StateTag) : Character :=
  stateEnter cfg (stateExit c) tag

/-- `Character.takeDamage`: reduce via the active mode's defend, clamp
health at zero, overwrite velocity with the knockback, store the hit stun,
force a transition to the Hit state, and notify the health change. -/
def Character.takeDamage (cfg : GameConfig) (c : Character) (r : AttackResult) : Character :=
  let reducedDamage := (getMode c.elementalMode).defend r.damage
  let c1 := { c with health := jsMax 0 (c.health - reducedDamage)
                     velocity := r.knockback
                     lastHitStun := r.hitStun }
  let c2 := Character.transitionTo cfg c1 .hit
  { c2 with events := c2.events ++
      [.healthChange c2.playerId c2.health cfg.maxHealth reducedDamage] }

/-- `Character.checkAttackHit`: false without a hitbox or opponent;
otherwise on hurtbox overlap, compute the strategy's attack result and
apply it to the opponent. Returns the hit flag and the updated opponent. -/
def Character.checkAttackHit (cfg : GameConfig) (c : Character)
    (opp : Option Character) : Bool × Option Character :=
  match c.attackHitbox, opp with
  | none, _ => (false, opp)
  | some _, none => (false, opp)
  | some hb, some o =>
    if hb.intersects (Character.getHurtbox cfg o) then
      let result := (getMode c.elementalMode).attack c o
      (true, some (Character.takeDamage cfg o result))
    else
      (false, some o)

/-- `IdleState.update`: gravity and ground collision only. -/
def idleUpdate (cfg : GameConfig) (c : Character) (dt : ℚ) : Character :=
  Character.checkGroundCollision cfg (Character.applyGravity cfg c dt)

/-- `MoveState.update`: horizontal velocity from intent, facing, jump,
gravity, position integration, ground and boundary collisions. -/
def moveUpdate (cfg : GameConfig) (c : Character) (dt : ℚ) : Character :=
  let moveX : ℚ := (if c.inputFlags.left then -1 else 0) +
                   (if c.inputFlags.right then 1 else 0)
  let c1 := if c.inputFlags.left then { c with facingRight := false } else c
  let c2 := if c1.inputFlags.right then { c1 with facingRight := true } else c1
  let c3 := { c2 with velocity := ⟨moveX * cfg.characterSpeed, c2.velocity.y⟩ }
  let c4 :=
    if c3.inputFlags.up && c3.isGrounded then
      { c3 with velocity := ⟨c3.velocity.x, cfg.jumpForce⟩, isGrounded := false }
    else c3
  let c5 := Character.applyGravity cfg c4 dt
  let c6 := { c5 with position := ⟨c5.position.x + c5.velocity.x * dt,
                                   c5.position.y + c5.velocity.y * dt⟩ }
  Character.checkBoundaries cfg (Character.checkGroundCollision cfg c6)

/-- `HitState.update` (physics part): knockback decay, gravity, position
integration, ground and boundary collisions. -/
def hitUpdate (cfg : GameConfig) (c : Character) (dt : ℚ) : Character :=
  let c1 := { c with velocity := ⟨c.velocity.x * (9 / 10), c.velocity.y⟩ }
  let c2 := Character.applyGravity cfg c1 dt
  let c3 := { c2 with position := ⟨c2.position.x + c2.velocity.x * dt,
                                   c2.position.y + c2.velocity.y * dt⟩ }
  Character.checkBoundaries cfg (Character.checkGroundCollision cfg c3)

/-- `AttackState.update`: advance the attack timer, gravity and vertical
integration, reposition the hitbox, and perform the hit check only while
the one-shot `hasHit` flag is unset. -/
def attackUpdate (cfg : GameConfig) (c : Character) (opp : Option Character)
    (dt t : ℚ) (b : Bool) : Character × Option Character :=
  let t' := t + dt * 1000
  let c1 := Character.applyGravity cfg c dt
  let c2 := { c1 with position := ⟨c1.position.x, c1.position.y + c1.velocity.y * dt⟩ }
  let c3 := Character.checkGroundCollision cfg c2
  let c4 := Character.updateAttackHitbox cfg c3
  if b then
    ({ c4 with state := .attack t' b }, opp)
  else
    let res := Character.checkAttackHit cfg c4 opp
    ({ c4 with state := .attack t' (b || res.1) }, res.2)

/-- Per-frame `update` of the current state, dispatching on the active
variant; only the Attack state can touch the opponent. -/
def stateUpdate (cfg : GameConfig) (c : Character) (opp : Option Character)
    (dt : ℚ) : Character × Option Character :=
  match c.state with
  | .idle => (idleUpdate cfg c dt, opp)
  | .move => (moveUpdate cfg c dt, opp)
  | .attack t b => attackUpdate cfg c opp dt t b
  | .hit t d =>
    ({ hitUpdate cfg c dt with state := .hit (t + dt * 1000) d }, opp)

/-- `canTransition` of the current state: Idle/Move honor attack intent
first, Attack times out to Move or Idle, Hit recovers to Idle. -/
def canTransition (cfg : GameConfig) (c : Character) : Option StateTag :=
  match c.state with
  | .idle =>
    if c.inputFlags.attack && Character.canAttack c then some .attack
    else if c.inputFlags.moving then some .move
    else none
  | .move =>
    if c.inputFlags.attack && Character.canAttack c then some .attack
    else if !c.inputFlags.moving then some .idle
    else none
  | .attack t _ =>
    if t ≥ cfg.attackDuration then
      if c.inputFlags.moving then some .move else some .idle
    else none
  | .hit t d =>
    if t ≥ d then some .idle else none

/-- `Character.update`: decrement the cooldown, run the current state's
update, then apply at most one state transition. -/
def Character.update (cfg : GameConfig) (c : Character) (opp : Option Character)
    (dt : ℚ) : Character × Option Character :=
  let c0 :=
    if c.attackCooldownTimer > 0 then
      { c with attackCooldownTimer := c.attackCooldownTimer - dt * 1000 }
    else c
  let res := stateUpdate cfg c0 opp dt
  match canTransition cfg res.1 with
  | some tag => (Character.transitionTo cfg res.1 tag, res.2)
  | none => res

/-- `Character.switchElementalMode`: silent no-op while attacking or
stunned; otherwise toggle the mode and notify the mode change. -/
def Character.switchElementalMode (c : Character) : Character :=
  if c.isAttacking || c.isHitStunned then c
  else
    let m := otherMode c.elementalMode
    { c with elementalMode := m
             events := c.events ++ [.modeChange c.playerId m] }

/-- `Character.reset`: full restore of transform, health, flags, timers,
hitbox and input, transition back to Idle, and a zero-damage health
notification. -/
def Character.reset (cfg : GameConfig) (c : Character) (startPosition : Vector2) : Character :=
  let c1 := { c with position := startPosition
                     velocity := ⟨0, 0⟩
                     health := cfg.maxHealth
                     isGrounded := true
                     isAttacking := false
                     isHitStunned := false
                     attackCooldownTimer := 0
                     attackHitbox := none }
  let c2 := Character.transitionTo cfg c1 .idle
  let c3 := { c2 with inputFlags := ⟨false, false, false, false, false, false⟩ }
  { c3 with events := c3.events ++
      [.healthChange c3.playerId c3.health cfg.maxHealth 0] }

/-- The `Character` constructor: fresh transform and combat fields,
Fire mode, Idle current state with its `enter` hook applied. -/
def mkCharacter (cfg : GameConfig) (playerId : String) (position : Vector2)
    (facingRight : Bool) : Character :=
  stateEnter cfg
    { playerId := playerId
      position := position
      velocity := ⟨0, 0⟩
      facingRight := facingRight
      health := cfg.maxHealth
      attackCooldownTimer := 0
      isAttacking := false
      isHitStunned := false
      lastHitStun := 0
      attackHitbox := none
      isGrounded := true
      elementalMode := .fire
      state := .idle
      inputFlags := ⟨false, false, false, false, false, false⟩
      events := [] } .idle

/-- `CollisionSystem.checkAABB`: strict interval overlap on both axes. -/
def CollisionSystem.checkAABB (a b : Rectangle) : Bool :=
  decide (a.x < b.x + b.width) &&
  decide (a.x + a.width > b.x) &&
  decide (a.y < b.y + b.height) &&
  decide (a.y + a.height > b.y)

/-- `CollisionSystem.checkCharacterCollision`: hurtbox-vs-hurtbox AABB. -/
def CollisionSystem.checkCharacterCollision (cfg : GameConfig) (a b : Character) : Bool :=
  CollisionSystem.checkAABB (Character.getHurtbox cfg a) (Character.getHurtbox cfg b)

/-- `CollisionSystem.resolveCharacterCollision`: on hurtbox overlap, push
the two characters apart horizontally by half the overlap each, direction
by strict comparison of the x positions. -/
def CollisionSystem.resolveCharacterCollision (cfg : GameConfig) (a b : Character) :
    Character × Character :=
  if !CollisionSystem.checkCharacterCollision cfg a b then (a, b)
  else
    let aBox := Character.getHurtbox cfg a
    let bBox := Character.getHurtbox cfg b
    let overlapX := jsMin (aBox.x + aBox.width - bBox.x) (bBox.x + bBox.width - aBox.x)
    let pushAmount := overlapX / 2
    if a.position.x < b.position.x then
      ({ a with position := ⟨a.position.x - pushAmount, a.position.y⟩ },
       { b with position := ⟨b.position.x + pushAmount, b.position.y⟩ })
    else
      ({ a with position := ⟨a.position.x + pushAmount, a.position.y⟩ },
       { b with position := ⟨b.position.x - pushAmount, b.position.y⟩ })

/-- Whether the stored behavior state is the Attack variant. -/
def StateData.isAttack : StateData → Bool
  | .attack _ _ => true
  | _ => false

/-- Whether the stored behavior state is the Move variant. -/
def StateData.isMove : StateData → Bool
  | .move => true
  | _ => false

/-- Whether the stored behavior state is the Hit variant. -/
def StateData.isHit : StateData → Bool
  | .hit _ _ => true
  | _ => false

/-- The spec invariant tying attack-hitbox presence to the Attack state. -/
def hitboxInv (c : Character) : Prop :=
  c.attackHitbox.isSome = c.state.isAttack

/-- Recognize a health-change notification. -/
def isHealthEvent : GameEvent → Bool
  | .healthChange _ _ _ _ => true
  | _ => false

/-- Number of health-change notifications an (optional) character has
emitted; `takeDamage` emits exactly one per invocation. -/
def damageCount (opp : Option Character) : ℕ :=
  match opp with
  | none => 0
  | some o => (o.events.filter isHealthEvent).length

/-- Iterate the current state's per-frame `update` (without the
transition check) over a list of frame delta times. -/
def runFrames (cfg : GameConfig) (c : Character) (opp : Option Character) :
    List ℚ → Character × Option Character
  | [] => (c, opp)
  | dt :: rest =>
    let res := stateUpdate cfg c opp dt
    runFrames cfg res.1 res.2 rest

/-- One public operation of the `Character` aggregate. For `update`, the
opponent passed by the driver is carried with the operation. -/
inductive CharOp where
  | update (dt : ℚ) (opp : Option Character)
  | takeDamage (r : AttackResult)
  | switchMode
  | reset (pos : Vector2)

/-- Apply one public operation to a character, keeping the character's
own resulting value. -/
def applyOp (cfg : GameConfig) (c : Character) : CharOp → Character
  | .update dt opp => (Character.update cfg c opp dt).1
  | .takeDamage r => Character.takeDamage cfg c r
  | .switchMode => Character.switchElementalMode c
  | .reset pos => Character.reset cfg c pos

/-! Field-preservation lemmas for the per-frame helpers. -/

section FieldLemmas

variable (cfg : GameConfig) (c : Character) (dt : ℚ)

@[simp] theorem applyGravity_position : (Character.applyGravity cfg c dt).position = c.position := by
  simp only [Character.applyGravity]; split <;> rfl

@[simp] theorem applyGravity_health : (Character.applyGravity cfg c dt).health = c.health := by
  simp only [Character.applyGravity]; split <;> rfl

@[simp] theorem applyGravity_events : (Character.applyGravity cfg c dt).events = c.events := by
  simp only [Character.applyGravity]; split <;> rfl

@[simp] theorem applyGravity_state : (Character.applyGravity cfg c dt).state = c.state := by
  simp only [Character.applyGravity]; split <;> rfl

@[simp] theorem applyGravity_attackHitbox :
    (Character.applyGravity cfg c dt).attackHitbox = c.attackHitbox := by
  simp only [Character.applyGravity]; split <;> rfl

@[simp] theorem applyGravity_playerId : (Character.applyGravity cfg c dt).playerId = c.playerId := by
  simp only [Character.applyGravity]; split <;> rfl

@[simp] theorem applyGravity_elementalMode :
    (Character.applyGravity cfg c dt).elementalMode = c.elementalMode := by
  simp only [Character.applyGravity]; split <;> rfl

@[simp] theorem checkGroundCollision_posX :
    (Character.checkGroundCollision cfg c).position.x = c.position.x := by
  simp only [Character.checkGroundCollision]; split <;> rfl

@[simp] theorem checkGroundCollision_health :
    (Character.checkGroundCollision cfg c).health = c.health := by
  simp only [Character.checkGroundCollision]; split <;> rfl

@[simp] theorem checkGroundCollision_events :
    (Character.checkGroundCollision cfg c).events = c.events := by
  simp only [Character.checkGroundCollision]; split <;> rfl

@[simp] theorem checkGroundCollision_state :
    (Character.checkGroundCollision cfg c).state = c.state := by
  simp only [Character.checkGroundCollision]; split <;> rfl

@[simp] theorem checkGroundCollision_attackHitbox :
    (Character.checkGroundCollision cfg c).attackHitbox = c.attackHitbox := by
  simp only [Character.checkGroundCollision]; split <;> rfl

@[simp] theorem checkGroundCollision_playerId :
    (Character.checkGroundCollision cfg c).playerId = c.playerId := by
  simp only [Character.checkGroundCollision]; split <;> rfl

@[simp] theorem checkGroundCollision_elementalMode :
    (Character.checkGroundCollision cfg c).elementalMode = c.elementalMode := by
  simp only [Character.checkGroundCollision]; split <;> rfl

@[simp] theorem checkBoundaries_health :
    (Character.checkBoundaries cfg c).health = c.health := by
  simp only [Character.checkBoundaries]; split <;> split <;> rfl

@[simp] theorem checkBoundaries_events :
    (Character.checkBoundaries cfg c).events = c.events := by
  simp only [Character.checkBoundaries]; split <;> split <;> rfl

@[simp] theorem checkBoundaries_state :
    (Character.checkBoundaries cfg c).state = c.state := by
  simp only [Character.checkBoundaries]; split <;> split <;> rfl

@[simp] theorem checkBoundaries_attackHitbox :
    (Character.checkBoundaries cfg c).attackHitbox = c.attackHitbox := by
  simp only [Character.checkBoundaries]; split <;> split <;> rfl

@[simp] theorem checkBoundaries_playerId :
    (Character.checkBoundaries cfg c).playerId = c.playerId := by
  simp only [Character.checkBoundaries]; split <;> split <;> rfl

@[simp] theorem checkBoundaries_elementalMode :
    (Character.checkBoundaries cfg c).elementalMode = c.elementalMode := by
  simp only [Character.checkBoundaries]; split <;> split <;> rfl

@[simp] theorem updateAttackHitbox_position :
    (Character.updateAttackHitbox cfg c).position = c.position := by
  simp only [Character.updateAttackHitbox]; split <;> rfl

@[simp] theorem updateAttackHitbox_health :
    (Character.updateAttackHitbox cfg c).health = c.health := by
  simp only [Character.updateAttackHitbox]; split <;> rfl

@[simp] theorem updateAttackHitbox_events :
    (Character.updateAttackHitbox cfg c).events = c.events := by
  simp only [Character.updateAttackHitbox]; split <;> rfl

@[simp] theorem updateAttackHitbox_state :
    (Character.updateAttackHitbox cfg c).state = c.state := by
  simp only [Character.updateAttackHitbox]; split <;> rfl

@[simp] theorem updateAttackHitbox_isSome :
    (Character.updateAttackHitbox cfg c).attackHitbox.isSome = c.attackHitbox.isSome := by
  simp only [Character.updateAttackHitbox]; split <;> simp_all

@[simp] theorem updateAttackHitbox_playerId :
    (Character.updateAttackHitbox cfg c).playerId = c.playerId := by
  simp only [Character.updateAttackHitbox]; split <;> rfl

@[simp] theorem updateAttackHitbox_elementalMode :
    (Character.updateAttackHitbox cfg c).elementalMode = c.elementalMode := by
  simp only [Character.updateAttackHitbox]; split <;> rfl

end FieldLemmas

/-! Field lemmas for the state hooks and transitions. -/

section HookLemmas

variable (cfg : GameConfig) (c : Character) (tag : StateTag)

@[simp] theorem stateExit_health : (stateExit c).health = c.health := by
  unfold stateExit; split <;> rfl

@[simp] theorem stateExit_events : (stateExit c).events = c.events := by
  unfold stateExit; split <;> rfl

@[simp] theorem stateExit_playerId : (stateExit c).playerId = c.playerId := by
  unfold stateExit; split <;> rfl

@[simp] theorem stateExit_position : (stateExit c).position = c.position := by
  unfold stateExit; split <;> rfl

@[simp] theorem stateExit_elementalMode : (stateExit c).elementalMode = c.elementalMode := by
  unfold stateExit; split <;> rfl

@[simp] theorem stateExit_inputFlags : (stateExit c).inputFlags = c.inputFlags := by
  unfold stateExit; split <;> rfl

@[simp] theorem stateExit_state : (stateExit c).state = c.state := by
  unfold stateExit; split <;> rfl

@[simp] theorem stateEnter_health : (stateEnter cfg c tag).health = c.health := by
  cases tag <;> rfl

@[simp] theorem stateEnter_events : (stateEnter cfg c tag).events = c.events := by
  cases tag <;> rfl

@[simp] theorem stateEnter_playerId : (stateEnter cfg c tag).playerId = c.playerId := by
  cases tag <;> rfl

@[simp] theorem stateEnter_position : (stateEnter cfg c tag).position = c.position := by
  cases tag <;> rfl

@[simp] theorem stateEnter_elementalMode :
    (stateEnter cfg c tag).elementalMode = c.elementalMode := by
  cases tag <;> rfl

@[simp] theorem stateEnter_inputFlags : (stateEnter cfg c tag).inputFlags = c.inputFlags := by
  cases tag <;> rfl

@[simp] theorem transitionTo_health : (Character.transitionTo cfg c tag).health = c.health := by
  simp [Character.transitionTo]

@[simp] theorem transitionTo_events : (Character.transitionTo cfg c tag).events = c.events := by
  simp [Character.transitionTo]

@[simp] theorem transitionTo_playerId :
    (Character.transitionTo cfg c tag).playerId = c.playerId := by
  simp [Character.transitionTo]

@[simp] theorem transitionTo_position :
    (Character.transitionTo cfg c tag).position = c.position := by
  simp [Character.transitionTo]

@[simp] theorem transitionTo_elementalMode :
    (Character.transitionTo cfg c tag).elementalMode = c.elementalMode := by
  simp [Character.transitionTo]

@[simp] theorem transitionTo_inputFlags :
    (Character.transitionTo cfg c tag).inputFlags = c.inputFlags := by
  simp [Character.transitionTo]

/-- The state after `stateEnter` by target tag. -/
theorem stateEnter_state_idle : (stateEnter cfg c .idle).state = .idle := rfl

theorem stateEnter_state_hit :
    (stateEnter cfg c .hit).state =
      .hit 0 (if c.lastHitStun = 0 then cfg.hitStunDuration else c.lastHitStun) := rfl

/-- `stateEnter` touches the hitbox only for the Attack target. -/
theorem stateEnter_attackHitbox_of_ne_attack (h : tag ≠ .attack) :
    (stateEnter cfg c tag).attackHitbox = c.attackHitbox := by
  cases tag <;> first | rfl | exact absurd rfl h

/-- Entering Attack always installs a hitbox. -/
theorem stateEnter_attack_isSome :
    (stateEnter cfg c .attack).attackHitbox.isSome = true := rfl

/-- Exiting removes the hitbox exactly when leaving the Attack state. -/
theorem stateExit_attackHitbox :
    (stateExit c).attackHitbox = if c.state.isAttack then none else c.attackHitbox := by
  unfold stateExit; cases hs : c.state <;>
    simp [StateData.isAttack, Character.removeAttackHitbox]

end HookLemmas

section TakeDamageLemmas

variable (cfg : GameConfig) (c : Character) (r : AttackResult)

/-- The clamped health written by `takeDamage`. -/
theorem takeDamage_health :
    (Character.takeDamage cfg c r).health =
      jsMax 0 (c.health - (getMode c.elementalMode).defend r.damage) := by
  simp [Character.takeDamage]

/-- The single health-change notification emitted by `takeDamage`. -/
theorem takeDamage_events :
    (Character.takeDamage cfg c r).events = c.events ++
      [GameEvent.healthChange c.playerId
        (jsMax 0 (c.health - (getMode c.elementalMode).defend r.damage))
        cfg.maxHealth ((getMode c.elementalMode).defend r.damage)] := by
  simp [Character.takeDamage]

/-- `takeDamage` always lands in the Hit state (with zeroed stun timer). -/
theorem takeDamage_state :
    (Character.takeDamage cfg c r).state =
      .hit 0 (if c.state.isHit then cfg.hitStunDuration
              else if r.hitStun = 0 then cfg.hitStunDuration else r.hitStun) := by
  unfold Character.takeDamage Character.transitionTo stateEnter stateExit
  cases hs : c.state <;> simp [hs, StateData.isHit, Character.removeAttackHitbox]

/-- The stored stun after `takeDamage`: zeroed by `HitState.exit` when the
character was already in Hit, the raw attack value otherwise. -/
theorem takeDamage_lastHitStun :
    (Character.takeDamage cfg c r).lastHitStun =
      if c.state.isHit then 0 else r.hitStun := by
  unfold Character.takeDamage Character.transitionTo stateEnter stateExit
  cases hs : c.state <;> simp [hs, StateData.isHit, Character.removeAttackHitbox]

/-- The velocity after `takeDamage`: the knockback, except that
`MoveState.exit` zeroes its horizontal component when leaving Move. -/
theorem takeDamage_velocity :
    (Character.takeDamage cfg c r).velocity =
      if c.state.isMove then ⟨0, r.knockback.y⟩ else r.knockback := by
  unfold Character.takeDamage Character.transitionTo stateEnter stateExit
  cases hs : c.state <;> simp [hs, StateData.isMove, Character.removeAttackHitbox]

/-- `takeDamage` never leaves a hitbox behind. -/
theorem takeDamage_attackHitbox :
    (Character.takeDamage cfg c r).attackHitbox =
      if c.state.isAttack then none else c.attackHitbox := by
  unfold Character.takeDamage Character.transitionTo stateEnter stateExit
  cases hs : c.state <;> simp [hs, StateData.isAttack, Character.removeAttackHitbox]

end TakeDamageLemmas

/-! Field lemmas for the per-state updates. -/

section StateUpdateLemmas

variable (cfg : GameConfig) (c : Character) (opp : Option Character) (dt t : ℚ) (b : Bool)

@[simp] theorem idleUpdate_health : (idleUpdate cfg c dt).health = c.health := by
  simp [idleUpdate]

@[simp] theorem idleUpdate_events : (idleUpdate cfg c dt).events = c.events := by
  simp [idleUpdate]

@[simp] theorem idleUpdate_state : (idleUpdate cfg c dt).state = c.state := by
  simp [idleUpdate]

@[simp] theorem idleUpdate_attackHitbox :
    (idleUpdate cfg c dt).attackHitbox = c.attackHitbox := by
  simp [idleUpdate]

@[simp] theorem moveUpdate_health : (moveUpdate cfg c dt).health = c.health := by
  simp only [moveUpdate]; split <;> split <;> split <;> simp

@[simp] theorem moveUpdate_events : (moveUpdate cfg c dt).events = c.events := by
  simp only [moveUpdate]; split <;> split <;> split <;> simp

@[simp] theorem moveUpdate_state : (moveUpdate cfg c dt).state = c.state := by
  simp only [moveUpdate]; split <;> split <;> split <;> simp

@[simp] theorem moveUpdate_attackHitbox :
    (moveUpdate cfg c dt).attackHitbox = c.attackHitbox := by
  simp only [moveUpdate]; split <;> split <;> split <;> simp

@[simp] theorem hitUpdate_health : (hitUpdate cfg c dt).health = c.health := by
  simp [hitUpdate]

@[simp] theorem hitUpdate_events : (hitUpdate cfg c dt).events = c.events := by
  simp [hitUpdate]

@[simp] theorem hitUpdate_attackHitbox :
    (hitUpdate cfg c dt).attackHitbox = c.attackHitbox := by
  simp [hitUpdate]

@[simp] theorem attackUpdate_fst_posX :
    (attackUpdate cfg c opp dt t b).1.position.x = c.position.x := by
  simp only [attackUpdate]
  split <;> simp

@[simp] theorem attackUpdate_fst_health :
    (attackUpdate cfg c opp dt t b).1.health = c.health := by
  simp only [attackUpdate]
  split <;> simp

@[simp] theorem attackUpdate_fst_hitbox_isSome :
    (attackUpdate cfg c opp dt t b).1.attackHitbox.isSome = c.attackHitbox.isSome := by
  simp only [attackUpdate]
  split <;> simp

/-- `isHealthEvent` holds of the event `takeDamage` appends. -/
@[simp] theorem isHealthEvent_healthChange (p : String) (h m d : ℚ) :
    isHealthEvent (.healthChange p h m d) = true := rfl

/-- `checkAttackHit` raises the opponent's health-notification count by
one exactly when it reports a hit. -/
theorem checkAttackHit_damageCount :
    damageCount (Character.checkAttackHit cfg c opp).2 =
      damageCount opp +
        (if (Character.checkAttackHit cfg c opp).1 then 1 else 0) := by
  unfold Character.checkAttackHit
  cases hA : c.attackHitbox with
  | none => cases opp <;> simp [damageCount]
  | some hb =>
    cases opp with
    | none => simp [damageCount]
    | some o =>
      by_cases hI : hb.intersects (Character.getHurtbox cfg o) = true
      · simp [hI, damageCount, takeDamage_events, List.filter_append]
      · simp [Bool.not_eq_true] at hI
        simp [hI, damageCount]

/-- If `checkAttackHit` reports no hit, the opponent is untouched. -/
theorem checkAttackHit_miss
    (h : (Character.checkAttackHit cfg c opp).1 = false) :
    (Character.checkAttackHit cfg c opp).2 = opp := by
  unfold Character.checkAttackHit at *
  cases hA : c.attackHitbox with
  | none => cases opp <;> simp
  | some hb =>
    cases opp with
    | none => simp
    | some o =>
      by_cases hI : hb.intersects (Character.getHurtbox cfg o) = true
      · simp [hA, hI] at h
      · simp [Bool.not_eq_true] at hI
        simp [hI]

/-- One Attack-state frame: the state stays Attack with the advanced
timer, the flag only ever turns on, a set flag freezes the opponent, and
the opponent's damage count grows by the hit indicator. -/
theorem attackUpdate_spec :
    ∃ hit : Bool,
      (attackUpdate cfg c opp dt t b).1.state = .attack (t + dt * 1000) (b || hit) ∧
      (b = true → (attackUpdate cfg c opp dt t b).2 = opp) ∧
      damageCount (attackUpdate cfg c opp dt t b).2 =
        damageCount opp + (if b = false ∧ hit = true then 1 else 0) := by
  cases b with
  | true =>
    refine ⟨false, ?_, ?_, ?_⟩ <;> simp [attackUpdate]
  | false =>
    refine ⟨(Character.checkAttackHit cfg
      (Character.updateAttackHitbox cfg (Character.checkGroundCollision cfg
        { Character.applyGravity cfg c dt with position :=
            ⟨(Character.applyGravity cfg c dt).position.x,
             (Character.applyGravity cfg c dt).position.y +
               (Character.applyGravity cfg c dt).velocity.y * dt⟩ })) opp).1, ?_, ?_, ?_⟩
    · simp [attackUpdate]
    · simp
    · simp only [attackUpdate, Bool.false_eq_true, if_false]
      rw [checkAttackHit_damageCount]
      simp

end StateUpdateLemmas

/-! Lemmas at the level of `stateUpdate`, `Character.update` and the
remaining public operations. -/

section UpdateLemmas

variable (cfg : GameConfig) (c : Character) (opp : Option Character) (dt : ℚ)
variable (tag : StateTag) (r : AttackResult) (p : Vector2)

@[simp] theorem stateUpdate_fst_health :
    (stateUpdate cfg c opp dt).1.health = c.health := by
  unfold stateUpdate; split <;> simp

/-- Entering the Attack state resets the scratch fields. -/
theorem stateEnter_attack_state :
    (stateEnter cfg c .attack).state = .attack 0 false := rfl

/-- The entered state is not Attack when the target tag is not Attack. -/
theorem stateEnter_isAttack_false (h : tag ≠ .attack) :
    (stateEnter cfg c tag).state.isAttack = false := by
  cases tag with
  | attack => exact absurd rfl h
  | idle => rfl
  | move => rfl
  | hit => rfl

/-- The hitbox-iff-Attack invariant survives a transition. -/
theorem transitionTo_hitboxInv (h : hitboxInv c) :
    hitboxInv (Character.transitionTo cfg c tag) := by
  unfold hitboxInv at h ⊢
  unfold Character.transitionTo
  by_cases ht : tag = StateTag.attack
  · subst ht
    rfl
  · rw [stateEnter_attackHitbox_of_ne_attack _ _ _ ht, stateExit_attackHitbox,
      stateEnter_isAttack_false _ _ _ ht]
    by_cases hA : c.state.isAttack = true
    · simp [hA]
    · simp only [Bool.not_eq_true] at hA
      simp [hA, hA ▸ h]

/-- The hitbox-iff-Attack invariant survives one state-update frame. -/
theorem stateUpdate_hitboxInv (h : hitboxInv c) :
    hitboxInv (stateUpdate cfg c opp dt).1 := by
  unfold hitboxInv at h ⊢
  cases hs : c.state with
  | idle =>
    simp only [stateUpdate, hs]
    simp [hs, StateData.isAttack] at h ⊢
    exact h
  | move =>
    simp only [stateUpdate, hs]
    simp [hs, StateData.isAttack] at h ⊢
    exact h
  | hit t d =>
    simp only [stateUpdate, hs]
    simp [StateData.isAttack] at h ⊢
    rw [hs] at h
    simpa [StateData.isAttack] using h
  | attack t b =>
    obtain ⟨hit, hstate, -, -⟩ := attackUpdate_spec cfg c opp dt t b
    simp only [stateUpdate, hs]
    rw [hstate]
    simp [StateData.isAttack]
    rw [hs] at h
    simpa [StateData.isAttack] using h

/-- The hitbox-iff-Attack invariant survives `takeDamage`. -/
theorem takeDamage_hitboxInv (h : hitboxInv c) :
    hitboxInv (Character.takeDamage cfg c r) := by
  unfold hitboxInv at h ⊢
  rw [takeDamage_state, takeDamage_attackHitbox]
  by_cases hA : c.state.isAttack = true
  · rw [if_pos hA]; rfl
  · simp only [Bool.not_eq_true] at hA
    rw [if_neg (by simp [hA]), h, hA]
    rfl

/-- The hitbox-iff-Attack invariant survives `Character.update`. -/
theorem update_hitboxInv (h : hitboxInv c) :
    hitboxInv (Character.update cfg c opp dt).1 := by
  have hc0 : hitboxInv (if c.attackCooldownTimer > 0 then
      { c with attackCooldownTimer := c.attackCooldownTimer - dt * 1000 }
      else c) := by
    unfold hitboxInv at h ⊢; split <;> simpa using h
  simp only [Character.update]
  split
  · exact transitionTo_hitboxInv _ _ _ (stateUpdate_hitboxInv _ _ _ _ hc0)
  · exact stateUpdate_hitboxInv _ _ _ _ hc0

@[simp] theorem switchElementalMode_state :
    (Character.switchElementalMode c).state = c.state := by
  unfold Character.switchElementalMode; split <;> rfl

@[simp] theorem switchElementalMode_attackHitbox :
    (Character.switchElementalMode c).attackHitbox = c.attackHitbox := by
  unfold Character.switchElementalMode; split <;> rfl

@[simp] theorem switchElementalMode_health :
    (Character.switchElementalMode c).health = c.health := by
  unfold Character.switchElementalMode; split <;> rfl

/-- The hitbox-iff-Attack invariant survives `switchElementalMode`. -/
theorem switchElementalMode_hitboxInv (h : hitboxInv c) :
    hitboxInv (Character.switchElementalMode c) := by
  unfold hitboxInv at h ⊢; simp [h]

/-- `reset` re-establishes the hitbox-iff-Attack invariant outright. -/
theorem reset_hitboxInv : hitboxInv (Character.reset cfg c p) := by
  unfold hitboxInv Character.reset Character.transitionTo stateEnter stateExit
    Character.removeAttackHitbox
  cases hs : c.state <;> simp [hs, StateData.isAttack]

/-- A freshly constructed character satisfies the invariant. -/
theorem mkCharacter_hitboxInv (playerId : String) (pos : Vector2) (fr : Bool) :
    hitboxInv (mkCharacter cfg playerId pos fr) := by
  unfold hitboxInv mkCharacter
  rfl

end UpdateLemmas

/-! Frame-iteration lemmas for the Attack state. -/

@[simp] theorem runFrames_nil (cfg : GameConfig) (c : Character) (opp : Option Character) :
    runFrames cfg c opp [] = (c, opp) := rfl

theorem runFrames_cons (cfg : GameConfig) (c : Character) (opp : Option Character)
    (d : ℚ) (rest : List ℚ) :
    runFrames cfg c opp (d :: rest) =
      runFrames cfg (stateUpdate cfg c opp d).1 (stateUpdate cfg c opp d).2 rest := rfl

theorem stateUpdate_attack_eq (cfg : GameConfig) (c : Character) (opp : Option Character)
    (dt t : ℚ) (b : Bool) (hs : c.state = .attack t b) :
    stateUpdate cfg c opp dt = attackUpdate cfg c opp dt t b := by
  simp only [stateUpdate, hs]

/-- Iterating Attack-state frames never moves the character horizontally. -/
theorem runFrames_attack_posX (cfg : GameConfig) :
    ∀ (dts : List ℚ) (c : Character) (opp : Option Character) (t : ℚ) (b : Bool),
      c.state = .attack t b → (runFrames cfg c opp dts).1.position.x = c.position.x := by
  intro dts
  induction dts with
  | nil => intro c opp t b _; rfl
  | cons d rest ih =>
    intro c opp t b hs
    rw [runFrames_cons, stateUpdate_attack_eq cfg c opp d t b hs]
    obtain ⟨hit, hstate, -, -⟩ := attackUpdate_spec cfg c opp d t b
    rw [ih _ _ _ _ hstate]
    exact attackUpdate_fst_posX cfg c opp d t b

/-- Iterating Attack-state frames raises the opponent's damage count by at
most one when the one-shot flag starts unset, and not at all once set. -/
theorem runFrames_attack_damageCount (cfg : GameConfig) :
    ∀ (dts : List ℚ) (c : Character) (opp : Option Character) (t : ℚ) (b : Bool),
      c.state = .attack t b →
      damageCount (runFrames cfg c opp dts).2 ≤
        damageCount opp + (if b then 0 else 1) := by
  intro dts
  induction dts with
  | nil =>
    intro c opp t b _
    cases b <;> simp
  | cons d rest ih =>
    intro c opp t b hs
    rw [runFrames_cons, stateUpdate_attack_eq cfg c opp d t b hs]
    obtain ⟨hit, hstate, -, hcount⟩ := attackUpdate_spec cfg c opp d t b
    have hrec := ih (attackUpdate cfg c opp d t b).1 (attackUpdate cfg c opp d t b).2
      (t + d * 1000) (b || hit) hstate
    cases b with
    | true => cases hit <;> simp_all
    | false => cases hit <;> simp_all

/-! Concrete fixtures used by the closed instantiations. -/

/-- A Fire-mode character mid-attack (fresh activation, hitbox out). -/
def wAttacker : Character :=
  { playerId := "Player1", position := ⟨100, 400⟩, velocity := ⟨0, 0⟩,
    facingRight := true, health := 100, attackCooldownTimer := 533,
    isAttacking := true, isHitStunned := false, lastHitStun := 0,
    attackHitbox := some ⟨true, 150, 430, 60, 40, "Player1", 15⟩,
    isGrounded := true, elementalMode := .fire, state := .attack 0 false,
    inputFlags := ⟨false, false, false, false, true, false⟩, events := [] }

/-- A Water-mode idle character standing inside the attacker's reach. -/
def wVictim : Character :=
  { playerId := "Player2", position := ⟨160, 400⟩, velocity := ⟨0, 0⟩,
    facingRight := false, health := 100, attackCooldownTimer := 0,
    isAttacking := false, isHitStunned := false, lastHitStun := 0,
    attackHitbox := none, isGrounded := true, elementalMode := .water,
    state := .idle, inputFlags := ⟨false, false, false, false, false, false⟩,
    events := [] }

/-- A character currently in the Move state. -/
def wMover : Character :=
  { wVictim with
    playerId := "Player1"
    state := StateData.move
    inputFlags := ⟨false, true, false, false, false, true⟩ }

/-- A character currently stunned in the Hit state. -/
def wStunned : Character :=
  { wVictim with state := StateData.hit 0 111, isHitStunned := true }

/-- A sample attack result. -/
def wResult : AttackResult := ⟨10, ⟨5, -3⟩, 250⟩

/-- C1: over all update frames of one Attack activation (one-shot flag
reset by `AttackState.enter`), the opponent's `takeDamage` — visible as
its health-change notifications — is invoked at most once, no matter how
many frames the hitbox overlaps the hurtbox. -/
theorem attack_activation_damages_opponent_at_most_once
    (cfg : GameConfig) (c : Character) (opp : Option Character) (dts : List ℚ)
    (t : ℚ) (h : c.state = .attack t false) :
    damageCount (runFrames cfg c opp dts).2 ≤ damageCount opp + 1 := by
  simpa using runFrames_attack_damageCount cfg dts c opp t false h

/-- Closed instantiation of the at-most-once-damage theorem: an attacker
whose hitbox overlaps the victim on every one of three frames. -/
theorem attack_activation_damages_opponent_at_most_once_witness :
    wAttacker.state = .attack 0 false ∧
    damageCount (runFrames defaultConfig wAttacker (some wVictim)
      [mkRat 1 60, mkRat 1 60, mkRat 1 60]).2 ≤ damageCount (some wVictim) + 1 :=
  ⟨rfl, attack_activation_damages_opponent_at_most_once defaultConfig wAttacker
    (some wVictim) [mkRat 1 60, mkRat 1 60, mkRat 1 60] 0 rfl⟩

/-- C10: `AttackState.update` only integrates vertically, so any number
of Attack-state frames leaves the character's x coordinate at its
attack-entry value; and `MoveState.exit` zeroes the horizontal velocity
on the way into Attack. -/
theorem attackState_frames_preserve_position_x
    (cfg : GameConfig) (c : Character) (opp : Option Character) (dts : List ℚ)
    (t : ℚ) (b : Bool) (hs : c.state = .attack t b) (_hdt : ∀ d ∈ dts, 0 ≤ d) :
    (runFrames cfg c opp dts).1.position.x = c.position.x ∧
    ∀ cm : Character, cm.state = .move → (stateExit cm).velocity.x = 0 := by
  refine ⟨runFrames_attack_posX cfg dts c opp t b hs, ?_⟩
  intro cm hm
  simp [stateExit, hm]

/-- Closed instantiation of the Attack-state x-preservation theorem. -/
theorem attackState_frames_preserve_position_x_witness :
    wAttacker.state = .attack 0 false ∧
    (∀ d ∈ [mkRat 1 60], (0:ℚ) ≤ d) ∧
    ((runFrames defaultConfig wAttacker (some wVictim) [mkRat 1 60]).1.position.x =
        wAttacker.position.x ∧
      ∀ cm : Character, cm.state = .move → (stateExit cm).velocity.x = 0) :=
  ⟨rfl, by with_unfolding_all decide,
    attackState_frames_preserve_position_x defaultConfig wAttacker (some wVictim)
      [mkRat 1 60] 0 false rfl (by with_unfolding_all decide)⟩

/-- `Character.update` never changes the character's own health; damage
flows only through the opponent reference. -/
@[simp] theorem update_fst_health (cfg : GameConfig) (c : Character)
    (opp : Option Character) (dt : ℚ) :
    (Character.update cfg c opp dt).1.health = c.health := by
  simp only [Character.update]
  split <;> split <;> simp

/-- C2: `0 ≤ health ≤ maxHealth` is preserved by `update` and, provided
the active mode's defend function returns a non-negative reduced damage,
by `takeDamage`, which clamps at zero and never increases health. -/
theorem health_bounds_preserved (cfg : GameConfig) (c : Character)
    (opp : Option Character) (dt : ℚ) (r : AttackResult)
    (h0 : 0 ≤ c.health) (h1 : c.health ≤ cfg.maxHealth)
    (hdef : 0 ≤ (getMode c.elementalMode).defend r.damage) :
    (0 ≤ (Character.update cfg c opp dt).1.health ∧
      (Character.update cfg c opp dt).1.health ≤ cfg.maxHealth) ∧
    (0 ≤ (Character.takeDamage cfg c r).health ∧
      (Character.takeDamage cfg c r).health ≤ cfg.maxHealth) ∧
    (Character.takeDamage cfg c r).health =
      jsMax 0 (c.health - (getMode c.elementalMode).defend r.damage) ∧
    (Character.takeDamage cfg c r).health ≤ c.health := by
  refine ⟨⟨?_, ?_⟩, ⟨?_, ?_⟩, takeDamage_health cfg c r, ?_⟩ <;>
    first
      | (rw [update_fst_health]; assumption)
      | (rw [takeDamage_health]; unfold jsMax; split <;> linarith)

/-- Closed instantiation of the health-bounds theorem on a fresh Fire
character taking a 10-damage hit. -/
theorem health_bounds_preserved_witness :
    (0 ≤ wVictim.health ∧ wVictim.health ≤ defaultConfig.maxHealth ∧
      0 ≤ (getMode wVictim.elementalMode).defend wResult.damage) ∧
    ((0 ≤ (Character.update defaultConfig wVictim (some wAttacker) (mkRat 1 60)).1.health ∧
        (Character.update defaultConfig wVictim (some wAttacker) (mkRat 1 60)).1.health ≤
          defaultConfig.maxHealth) ∧
      (0 ≤ (Character.takeDamage defaultConfig wVictim wResult).health ∧
        (Character.takeDamage defaultConfig wVictim wResult).health ≤
          defaultConfig.maxHealth) ∧
      (Character.takeDamage defaultConfig wVictim wResult).health =
        jsMax 0 (wVictim.health - (getMode wVictim.elementalMode).defend wResult.damage) ∧
      (Character.takeDamage defaultConfig wVictim wResult).health ≤ wVictim.health) :=
  ⟨⟨by with_unfolding_all decide, by with_unfolding_all decide,
      by with_unfolding_all decide⟩,
    health_bounds_preserved defaultConfig wVictim (some wAttacker) (mkRat 1 60) wResult
      (by with_unfolding_all decide) (by with_unfolding_all decide)
      (by with_unfolding_all decide)⟩

/-- Any sequence of public operations preserves the hitbox invariant. -/
theorem foldl_applyOp_hitboxInv (cfg : GameConfig) :
    ∀ (ops : List CharOp) (c : Character), hitboxInv c →
      hitboxInv (ops.foldl (applyOp cfg) c) := by
  intro ops
  induction ops with
  | nil => intro c h; exact h
  | cons op rest ih =>
    intro c h
    rw [List.foldl_cons]
    refine ih _ ?_
    cases op with
    | update dt opp => exact update_hitboxInv cfg c opp dt h
    | takeDamage r => exact takeDamage_hitboxInv cfg c r h
    | switchMode => exact switchElementalMode_hitboxInv c h
    | reset pos => exact reset_hitboxInv cfg c pos

/-- C3: after any sequence of public operations on a freshly constructed
character, the attack hitbox is present if and only if the current
behavior state is Attack. -/
theorem attack_hitbox_iff_attack_state (cfg : GameConfig) (pid : String)
    (pos : Vector2) (fr : Bool) (ops : List CharOp) :
    ((ops.foldl (applyOp cfg) (mkCharacter cfg pid pos fr)).attackHitbox.isSome = true ↔
      (ops.foldl (applyOp cfg) (mkCharacter cfg pid pos fr)).state.isAttack = true) := by
  have h := foldl_applyOp_hitboxInv cfg ops (mkCharacter cfg pid pos fr)
    (mkCharacter_hitboxInv cfg pid pos fr)
  unfold hitboxInv at h
  rw [h]

/-- C4: `switchElementalMode` is a silent no-op while attacking or
stunned (state unchanged, no notification); otherwise it toggles the
mode, emits exactly one mode-change notification, and a second legal call
restores the original mode. -/
theorem switchElementalMode_guarded_toggle (c : Character) :
    ((c.isAttacking || c.isHitStunned) = true → Character.switchElementalMode c = c) ∧
    ((c.isAttacking || c.isHitStunned) = false →
      (Character.switchElementalMode c).elementalMode = otherMode c.elementalMode ∧
      (Character.switchElementalMode c).events =
        c.events ++ [GameEvent.modeChange c.playerId (otherMode c.elementalMode)] ∧
      (Character.switchElementalMode
        (Character.switchElementalMode c)).elementalMode = c.elementalMode) := by
  constructor
  · intro h
    unfold Character.switchElementalMode
    rw [if_pos h]
  · intro h
    have h1 : Character.switchElementalMode c =
        { c with elementalMode := otherMode c.elementalMode
                 events := c.events ++
                   [GameEvent.modeChange c.playerId (otherMode c.elementalMode)] } := by
      unfold Character.switchElementalMode
      rw [if_neg (by simp [h])]
    refine ⟨by rw [h1], by rw [h1], ?_⟩
    rw [h1]
    unfold Character.switchElementalMode
    have h2 : (c.isAttacking || c.isHitStunned) = false := h
    rw [if_neg (by simp_all)]
    cases c.elementalMode <;> rfl

/-- Closed instantiation of the mode-switch theorem: a mid-attack call is
inert, and a legal call on a calm character toggles and notifies. -/
theorem switchElementalMode_guarded_toggle_witness :
    ((wAttacker.isAttacking || wAttacker.isHitStunned) = true ∧
      Character.switchElementalMode wAttacker = wAttacker) ∧
    ((wVictim.isAttacking || wVictim.isHitStunned) = false ∧
      ((Character.switchElementalMode wVictim).elementalMode = otherMode wVictim.elementalMode ∧
        (Character.switchElementalMode wVictim).events =
          wVictim.events ++ [GameEvent.modeChange wVictim.playerId (otherMode wVictim.elementalMode)] ∧
        (Character.switchElementalMode
          (Character.switchElementalMode wVictim)).elementalMode = wVictim.elementalMode)) :=
  ⟨⟨rfl, (switchElementalMode_guarded_toggle wAttacker).1 rfl⟩,
    ⟨rfl, (switchElementalMode_guarded_toggle wVictim).2 rfl⟩⟩

/-- C5 (amended): `takeDamage` clamps health, forces the transition to
Hit and notifies the health change with the reduced damage; the knockback
and stun writes survive except where the forced transition's exit hook
clobbers them — `MoveState.exit` zeroes `velocity.x` when leaving Move,
and `HitState.exit` zeroes `lastHitStun` when re-entering Hit. -/
theorem takeDamage_effects (cfg : GameConfig) (c : Character) (r : AttackResult) :
    (Character.takeDamage cfg c r).health =
      jsMax 0 (c.health - (getMode c.elementalMode).defend r.damage) ∧
    (Character.takeDamage cfg c r).velocity =
      (if c.state.isMove then ⟨0, r.knockback.y⟩ else r.knockback) ∧
    (Character.takeDamage cfg c r).lastHitStun =
      (if c.state.isHit then 0 else r.hitStun) ∧
    (Character.takeDamage cfg c r).state.isHit = true ∧
    (Character.takeDamage cfg c r).events = c.events ++
      [GameEvent.healthChange c.playerId
        (jsMax 0 (c.health - (getMode c.elementalMode).defend r.damage))
        cfg.maxHealth ((getMode c.elementalMode).defend r.damage)] :=
  ⟨takeDamage_health cfg c r, takeDamage_velocity cfg c r,
    takeDamage_lastHitStun cfg c r,
    by rw [takeDamage_state]; rfl,
    takeDamage_events cfg c r⟩

/-- C5 counterexample: on a moving character the knockback's horizontal
component is not what `takeDamage` leaves in `velocity.x`, and on an
already-stunned character `r.hitStun` is not what it leaves in
`lastHitStun`. -/
theorem takeDamage_overwrite_counterexample :
    (Character.takeDamage defaultConfig wMover wResult).velocity.x ≠
      wResult.knockback.x ∧
    (Character.takeDamage defaultConfig wStunned wResult).lastHitStun ≠
      wResult.hitStun := by
  constructor <;> with_unfolding_all decide

/-- C6 (amended): invoking `checkAttackHit` with no assigned opponent is
silently tolerated — it returns `false` without any hit check or damage
application — rather than failing fast. -/
theorem checkAttackHit_without_opponent_silent (cfg : GameConfig) (c : Character) :
    Character.checkAttackHit cfg c none = (false, none) := by
  rcases hA : c.attackHitbox with _ | hb <;>
    simp [Character.checkAttackHit, hA]

/-- C6 counterexample: a concrete mid-attack character with a live hitbox
and no opponent gets a normal `false` result, not a failure. -/
theorem checkAttackHit_without_opponent_counterexample :
    Character.checkAttackHit defaultConfig wAttacker none = (false, none) := rfl

/-- Fixture rectangles for the AABB instantiation. -/
def wRectA : Rectangle := ⟨0, 0, 2, 2⟩

/-- Fixture rectangle overlapping `wRectA` from the right. -/
def wRectB : Rectangle := ⟨1, 0, 2, 2⟩

/-- Fixture rectangle exactly edge-touching `wRectA` on its right edge. -/
def wRectC : Rectangle := ⟨2, 0, 2, 2⟩

/-- C7: `checkAABB` is the conjunction of the four strict interval
comparisons, and rectangles merely touching along an edge are not a
collision. -/
theorem checkAABB_characterization (a b : Rectangle)
    (_hwa : 0 ≤ a.width) (_hha : 0 ≤ a.height)
    (_hwb : 0 ≤ b.width) (_hhb : 0 ≤ b.height) :
    (CollisionSystem.checkAABB a b = true ↔
      (a.x < b.x + b.width ∧ a.x + a.width > b.x ∧
        a.y < b.y + b.height ∧ a.y + a.height > b.y)) ∧
    (a.x + a.width = b.x → CollisionSystem.checkAABB a b = false) := by
  constructor
  · simp [CollisionSystem.checkAABB, and_assoc]
  · intro he
    simp [CollisionSystem.checkAABB, he]

/-- Closed instantiation of the `checkAABB` characterization on an
overlapping pair, plus the edge-touch case on a pair where `wRectC`
starts exactly where `wRectA` ends. -/
theorem checkAABB_characterization_witness :
    ((0:ℚ) ≤ wRectA.width ∧ (0:ℚ) ≤ wRectA.height ∧
      (0:ℚ) ≤ wRectB.width ∧ (0:ℚ) ≤ wRectB.height) ∧
    ((CollisionSystem.checkAABB wRectA wRectB = true ↔
        (wRectA.x < wRectB.x + wRectB.width ∧ wRectA.x + wRectA.width > wRectB.x ∧
          wRectA.y < wRectB.y + wRectB.height ∧ wRectA.y + wRectA.height > wRectB.y)) ∧
      (wRectA.x + wRectA.width = wRectB.x →
        CollisionSystem.checkAABB wRectA wRectB = false)) ∧
    (wRectA.x + wRectA.width = wRectC.x ∧
      CollisionSystem.checkAABB wRectA wRectC = false) :=
  ⟨⟨by with_unfolding_all decide, by with_unfolding_all decide,
      by with_unfolding_all decide, by with_unfolding_all decide⟩,
    checkAABB_characterization wRectA wRectB (by with_unfolding_all decide)
      (by with_unfolding_all decide) (by with_unfolding_all decide)
      (by with_unfolding_all decide),
    by with_unfolding_all decide,
    (checkAABB_characterization wRectA wRectC (by with_unfolding_all decide)
        (by with_unfolding_all decide) (by with_unfolding_all decide)
        (by with_unfolding_all decide)).2 (by with_unfolding_all decide)⟩

/-- The horizontal overlap quantity computed by
`resolveCharacterCollision` (equal character widths). -/
def overlapX (cfg : GameConfig) (a b : Character) : ℚ :=
  jsMin (a.position.x + cfg.characterWidth - b.position.x)
        (b.position.x + cfg.characterWidth - a.position.x)

/-- Fixture character overlapping `wAttacker` from the right. -/
def wBlocker : Character := { wVictim with position := ⟨130, 400⟩ }

/-- C8: on hurtbox overlap, each character is displaced horizontally by
exactly half the horizontal overlap (the code's min-expression coincides
with the width of the intersection), direction decided by strict x
comparison with ties pushing `a` right and `b` left; y positions and
velocities are untouched, and without overlap both characters are
returned unchanged. -/
theorem resolveCharacterCollision_spec (cfg : GameConfig) (a b : Character) :
    (CollisionSystem.checkCharacterCollision cfg a b = false →
      CollisionSystem.resolveCharacterCollision cfg a b = (a, b)) ∧
    (CollisionSystem.checkCharacterCollision cfg a b = true →
      overlapX cfg a b =
        jsMin (a.position.x + cfg.characterWidth) (b.position.x + cfg.characterWidth) -
          jsMax a.position.x b.position.x ∧
      (if a.position.x < b.position.x then
        (CollisionSystem.resolveCharacterCollision cfg a b).1.position =
            ⟨a.position.x - overlapX cfg a b / 2, a.position.y⟩ ∧
          (CollisionSystem.resolveCharacterCollision cfg a b).2.position =
            ⟨b.position.x + overlapX cfg a b / 2, b.position.y⟩
        else
        (CollisionSystem.resolveCharacterCollision cfg a b).1.position =
            ⟨a.position.x + overlapX cfg a b / 2, a.position.y⟩ ∧
          (CollisionSystem.resolveCharacterCollision cfg a b).2.position =
            ⟨b.position.x - overlapX cfg a b / 2, b.position.y⟩) ∧
      (CollisionSystem.resolveCharacterCollision cfg a b).1.velocity = a.velocity ∧
      (CollisionSystem.resolveCharacterCollision cfg a b).2.velocity = b.velocity) := by
  constructor
  · intro h
    simp [CollisionSystem.resolveCharacterCollision, h]
  · intro h
    refine ⟨?_, ?_, ?_, ?_⟩
    · unfold overlapX jsMin jsMax
      split <;> split <;> split <;> linarith
    · split <;>
        simp [CollisionSystem.resolveCharacterCollision, h, overlapX,
          Character.getHurtbox, *]
    · simp [CollisionSystem.resolveCharacterCollision, h]
      split <;> rfl
    · simp [CollisionSystem.resolveCharacterCollision, h]
      split <;> rfl

/-- Closed instantiation of the body-resolution theorem on an overlapping
pair (overlap 20, so each character moves 10). -/
theorem resolveCharacterCollision_spec_witness :
    (CollisionSystem.checkCharacterCollision defaultConfig wAttacker wVictim = false ∧
      CollisionSystem.resolveCharacterCollision defaultConfig wAttacker wVictim =
        (wAttacker, wVictim)) ∧
    CollisionSystem.checkCharacterCollision defaultConfig wAttacker wBlocker = true ∧
    (overlapX defaultConfig wAttacker wBlocker =
        jsMin (wAttacker.position.x + defaultConfig.characterWidth)
            (wBlocker.position.x + defaultConfig.characterWidth) -
          jsMax wAttacker.position.x wBlocker.position.x ∧
      (if wAttacker.position.x < wBlocker.position.x then
        (CollisionSystem.resolveCharacterCollision defaultConfig wAttacker wBlocker).1.position =
            ⟨wAttacker.position.x - overlapX defaultConfig wAttacker wBlocker / 2,
              wAttacker.position.y⟩ ∧
          (CollisionSystem.resolveCharacterCollision defaultConfig wAttacker wBlocker).2.position =
            ⟨wBlocker.position.x + overlapX defaultConfig wAttacker wBlocker / 2,
              wBlocker.position.y⟩
        else
        (CollisionSystem.resolveCharacterCollision defaultConfig wAttacker wBlocker).1.position =
            ⟨wAttacker.position.x + overlapX defaultConfig wAttacker wBlocker / 2,
              wAttacker.position.y⟩ ∧
          (CollisionSystem.resolveCharacterCollision defaultConfig wAttacker wBlocker).2.position =
            ⟨wBlocker.position.x - overlapX defaultConfig wAttacker wBlocker / 2,
              wBlocker.position.y⟩) ∧
      (CollisionSystem.resolveCharacterCollision defaultConfig wAttacker wBlocker).1.velocity =
        wAttacker.velocity ∧
      (CollisionSystem.resolveCharacterCollision defaultConfig wAttacker wBlocker).2.velocity =
        wBlocker.velocity) :=
  ⟨⟨by with_unfolding_all decide,
      (resolveCharacterCollision_spec defaultConfig wAttacker wVictim).1
        (by with_unfolding_all decide)⟩,
    by with_unfolding_all decide,
    (resolveCharacterCollision_spec defaultConfig wAttacker wBlocker).2
      (by with_unfolding_all decide)⟩

/-- C9: two characters at identical x with overlapping hurtboxes resolve
to an equal-and-opposite half-width separation ending in exact edge
contact, which the strict AABB test does not count as a collision, so a
second resolution in the same frame changes nothing. -/
theorem resolve_tie_separation_stable (cfg : GameConfig) (a b : Character)
    (hx : a.position.x = b.position.x)
    (hov : CollisionSystem.checkCharacterCollision cfg a b = true) :
    (CollisionSystem.resolveCharacterCollision cfg a b).1.position.x =
      a.position.x + cfg.characterWidth / 2 ∧
    (CollisionSystem.resolveCharacterCollision cfg a b).2.position.x =
      b.position.x - cfg.characterWidth / 2 ∧
    (Character.getHurtbox cfg (CollisionSystem.resolveCharacterCollision cfg a b).2).x +
        cfg.characterWidth =
      (Character.getHurtbox cfg (CollisionSystem.resolveCharacterCollision cfg a b).1).x ∧
    CollisionSystem.checkCharacterCollision cfg
      (CollisionSystem.resolveCharacterCollision cfg a b).1
      (CollisionSystem.resolveCharacterCollision cfg a b).2 = false ∧
    CollisionSystem.resolveCharacterCollision cfg
      (CollisionSystem.resolveCharacterCollision cfg a b).1
      (CollisionSystem.resolveCharacterCollision cfg a b).2 =
      ((CollisionSystem.resolveCharacterCollision cfg a b).1,
        (CollisionSystem.resolveCharacterCollision cfg a b).2) := by
  have hlt : ¬ a.position.x < b.position.x := by rw [hx]; exact lt_irrefl _
  have hres : CollisionSystem.resolveCharacterCollision cfg a b =
      ({ a with position := ⟨a.position.x + cfg.characterWidth / 2, a.position.y⟩ },
        { b with position := ⟨b.position.x - cfg.characterWidth / 2, b.position.y⟩ }) := by
    have hpush : jsMin (a.position.x + cfg.characterWidth - b.position.x)
        (b.position.x + cfg.characterWidth - a.position.x) / 2 =
          cfg.characterWidth / 2 := by
      rw [hx]; unfold jsMin; split <;> ring
    simp only [CollisionSystem.resolveCharacterCollision, hov, Bool.not_true,
      Bool.false_eq_true, if_false, hlt, Character.getHurtbox]
    rw [hpush]
  have hsep : CollisionSystem.checkCharacterCollision cfg
      ({ a with position := ⟨a.position.x + cfg.characterWidth / 2, a.position.y⟩ })
      ({ b with position := ⟨b.position.x - cfg.characterWidth / 2, b.position.y⟩ }) =
        false := by
    have hh : ¬ (a.position.x + cfg.characterWidth / 2 <
        b.position.x - cfg.characterWidth / 2 + cfg.characterWidth) := by
      rw [hx]; intro hcon; linarith
    simp [CollisionSystem.checkCharacterCollision, CollisionSystem.checkAABB,
      Character.getHurtbox, hh]
  refine ⟨by simp [hres], by simp [hres], ?_, ?_, ?_⟩
  · simp [hres, Character.getHurtbox]
    rw [hx]
    ring
  · rw [hres]
    exact hsep
  · rw [hres]
    simp [CollisionSystem.resolveCharacterCollision, hsep]

/-- Closed instantiation of the tie-resolution theorem: `wMover` and
`wVictim` stand at the same x with fully overlapping hurtboxes. -/
theorem resolve_tie_separation_stable_witness :
    wMover.position.x = wVictim.position.x ∧
    CollisionSystem.checkCharacterCollision defaultConfig wMover wVictim = true ∧
    ((CollisionSystem.resolveCharacterCollision defaultConfig wMover wVictim).1.position.x =
        wMover.position.x + defaultConfig.characterWidth / 2 ∧
      (CollisionSystem.resolveCharacterCollision defaultConfig wMover wVictim).2.position.x =
        wVictim.position.x - defaultConfig.characterWidth / 2 ∧
      (Character.getHurtbox defaultConfig
          (CollisionSystem.resolveCharacterCollision defaultConfig wMover wVictim).2).x +
          defaultConfig.characterWidth =
        (Character.getHurtbox defaultConfig
          (CollisionSystem.resolveCharacterCollision defaultConfig wMover wVictim).1).x ∧
      CollisionSystem.checkCharacterCollision defaultConfig
        (CollisionSystem.resolveCharacterCollision defaultConfig wMover wVictim).1
        (CollisionSystem.resolveCharacterCollision defaultConfig wMover wVictim).2 = false ∧
      CollisionSystem.resolveCharacterCollision defaultConfig
        (CollisionSystem.resolveCharacterCollision defaultConfig wMover wVictim).1
        (CollisionSystem.resolveCharacterCollision defaultConfig wMover wVictim).2 =
        ((CollisionSystem.resolveCharacterCollision defaultConfig wMover wVictim).1,
          (CollisionSystem.resolveCharacterCollision defaultConfig wMover wVictim).2)) :=
  ⟨rfl, by with_unfolding_all decide,
    resolve_tie_separation_stable defaultConfig wMover wVictim rfl
      (by with_unfolding_all decide)⟩
